import Mathlib

/-!
Shallow embedding of the support ticketing system (app.py, class
SupportTicketingSystem) and proofs about its behaviour.

Modelling conventions:
- The MongoDB collection is a list of records in insertion order; a
  find_one with a descending sort on the primary key reads the record
  with the maximal primary key.
- datetime.now() is modelled by passing the current date (year, month,
  day) and, where a timestamp is stored, an explicit clock reading; the
  two consecutive datetime.now() calls inside create_ticket are two
  readings t1 and t2 that need not coincide.
- Python string formatting of integers is modelled by an explicit
  decimal-numeral function; int() applied to a digit string is the
  positional value of its digits.
- Fallible IMAP calls are modelled by Option results: a FETCH whose
  status is not OK is a none.
-/

/-- A decimal date, as read from datetime.now(): year, month, day. -/
structure Date where
  year : Nat
  month : Nat
  day : Nat
deriving DecidableEq

/-- A document of the threads collection. The keys follow the dict
literals in app.py. Timestamps are Option Nat: none stands for the
empty-string placeholder stored in the sentinel document. -/
structure Rec where
  _id : Nat
  ticket_id : Nat
  sender : String
  subject : String
  message : String
  status : String
  created_at : Option Nat
  updated_at : Option Nat
deriving DecidableEq

/-- Little-endian decimal digits of n, computed with structural fuel
(fuel at least n suffices). -/
def natDigitsRev : Nat → Nat → List Nat
  | 0, _ => []
  | _ + 1, 0 => []
  | fuel + 1, n + 1 => (n + 1) % 10 :: natDigitsRev fuel ((n + 1) / 10)

/-- The character of a decimal digit. -/
def chrDigit (d : Nat) : Char := Char.ofNat (48 + d)

/-- Python str(n) for a natural number: most-significant digit first. -/
def pyStr (n : Nat) : String :=
  if n = 0 then "0" else String.mk (((natDigitsRev n n).reverse).map chrDigit)

/-- Python str(n).zfill(2): pad with a leading zero below two digits.
Also models strftime of a day as a two-digit field for day < 100. -/
def zfill2 (n : Nat) : String :=
  if n < 10 then "0" ++ pyStr n else pyStr n

/-- One step of reading a decimal numeral left to right. -/
def dstep (a : Nat) (c : Char) : Nat := a * 10 + (c.toNat - 48)

/-- Positional value of a list of decimal digit characters. -/
def digitsVal (l : List Char) : Nat := l.foldl dstep 0

/-- Python int(s) on a string of decimal digits. -/
def pyInt (s : String) : Nat := digitsVal s.toList

/-- Value of a little-endian digit list. -/
def ofDigitsLE : List Nat → Nat
  | [] => 0
  | d :: ds => d + 10 * ofDigitsLE ds

/-- Primary key of the sentinel document seeded into an empty store. -/
def sentinel_id : Nat := 10000000000000

/-- initial_ticket_id of generate_ticket_id: int of the f-string
concatenating str(year), str(month).zfill(2), the two-digit day from
strftime, and str(counter) with counter = 100000. -/
def initial_ticket_id (d : Date) : Nat :=
  pyInt (pyStr d.year ++ zfill2 d.month ++ zfill2 d.day ++ pyStr 100000)

/-- The sentinel document inserted by generate_ticket_id on an empty
store: primary key 10000000000000, ticket_id the date-seeded initial
id, every other field an empty placeholder. -/
def sentinelRec (d : Date) : Rec :=
  { _id := sentinel_id
    ticket_id := initial_ticket_id d
    sender := ""
    subject := ""
    message := ""
    status := ""
    created_at := none
    updated_at := none }

/-- find_one with a descending sort on the primary key, projected to
the key: the maximal primary key in the store (0 on an empty store,
never consulted there). -/
def latest_ticket_id : List Rec → Nat
  | [] => 0
  | r :: rs => max r._id (latest_ticket_id rs)

/-- generate_ticket_id: on an empty store (find_one returns no
document) insert the sentinel and return the date-seeded initial id;
otherwise return the maximal primary key plus one. Returns the id and
the updated store. -/
def generate_ticket_id (d : Date) (s : List Rec) : Nat × List Rec :=
  match s with
  | [] => (initial_ticket_id d, [sentinelRec d])
  | _ :: _ => (latest_ticket_id s + 1, s)

/-- Python x or dflt for a string that may be None: both None and the
empty string are falsy and give the default. -/
def pyOrStr (x : Option String) (dflt : String) : String :=
  match x with
  | none => dflt
  | some v => if v = "" then dflt else v

/-- create_ticket: generate an id, build the schema dict with defaults
applied and both timestamps taken from datetime.now() (two consecutive
readings t1 and t2), insert it, and return the new id with the store. -/
def create_ticket (d : Date) (t1 t2 : Nat) (sender subject message : Option String)
    (s : List Rec) : Nat × List Rec :=
  let g := generate_ticket_id d s
  let schema : Rec :=
    { _id := g.1
      ticket_id := g.1
      sender := pyOrStr sender "Unknown Sender"
      subject := pyOrStr subject "No Subject"
      message := pyOrStr message "No Content"
      status := "open"
      created_at := some t1
      updated_at := some t2 }
  (g.1, g.2 ++ [schema])

/-- Validity bounds under which the embedded date arithmetic matches
the decimal f-string of the source: a four-digit year and two-digit
month and day fields. -/
def validDate (d : Date) : Prop :=
  1000 ≤ d.year ∧ d.month < 100 ∧ d.day < 100

instance (d : Date) : Decidable (validDate d) :=
  inferInstanceAs (Decidable (1000 ≤ d.year ∧ d.month < 100 ∧ d.day < 100))

/-- One ticket-creation event: the current date, the two clock readings
taken while building the schema, and the parsed message fields. -/
structure CreateEvent where
  date : Date
  t1 : Nat
  t2 : Nat
  sender : Option String
  subject : Option String
  message : Option String
deriving DecidableEq

/-- Run a sequence of create_ticket calls against a store, returning
the assigned ids in order and the final store. -/
def run_creations : List CreateEvent → List Rec → List Nat × List Rec
  | [], s => ([], s)
  | e :: es, s =>
    let c := create_ticket e.date e.t1 e.t2 e.sender e.subject e.message s
    let r := run_creations es c.2
    (c.1 :: r.1, r.2)

/-- One chunk returned by email.header.decode_header: the text it
decodes to and the charset the chunk declares (none when the chunk is
an unencoded str or declares no charset). A bytes chunk produced by
encoding `decoded` with its declared charset decodes back to `decoded`
(utf-8 is assumed when no charset is declared). -/
structure HeaderFragment where
  decoded : String
  encoding : Option String
deriving DecidableEq

/-- Decoding one fragment with its declared charset (utf-8 fallback)
recovers the pre-encoding text of that fragment. -/
def decode_fragment (f : HeaderFragment) : String := f.decoded

/-- A leaf part of a multipart message as seen by msg.walk(): its
content type, its Content-Disposition header (none when absent), and
its payload decoded to text. The multipart container itself has a
content type starting with multipart/ and is never selected, so it is
left out of the walk list. -/
structure EmailPart where
  content_type : String
  content_disposition : Option String
  payload : String
deriving DecidableEq

/-- A parsed inbound message: the From header (none when absent), the
decode_header fragments of the Subject header (none when the header is
absent; decode_header returns at least one fragment on a present
header, and on a present-but-empty header it returns exactly the single
unencoded empty chunk, modelled as some of the one-element list whose
fragment has empty decoded text and no encoding), the walked leaf parts
when the message is multipart, and the single decoded payload
otherwise. -/
structure EmailMessage where
  From : Option String
  subject : Option (List HeaderFragment)
  parts : Option (List EmailPart)
  payload : String
deriving DecidableEq

/-- Subject extraction of parse_email. The source guards with a Python
truthiness test on the raw header value, which fails both when the
header is absent and when it is present with an empty value; the raw
value is empty exactly when decode_header returns the single empty
unencoded chunk. Both falsy cases give No Subject; otherwise the first
decode_header fragment is decoded. -/
def parse_subject : Option (List HeaderFragment) → String
  | none => "No Subject"
  | some frags =>
    if frags = [{ decoded := "", encoding := none }] then "No Subject"
    else decode_fragment (frags.headD { decoded := "", encoding := none })

/-- Python substring membership, prefix test. -/
def listPrefixOf : List Char → List Char → Bool
  | [], _ => true
  | _ :: _, [] => false
  | a :: as, b :: bs => a == b && listPrefixOf as bs

/-- Python substring membership over character lists. -/
def listSubOf (needle : List Char) : List Char → Bool
  | [] => listPrefixOf needle []
  | b :: bs => listPrefixOf needle (b :: bs) || listSubOf needle bs

/-- Python needle in hay on strings. -/
def pyInStr (needle hay : String) : Bool := listSubOf needle.toList hay.toList

/-- Python str applied to a header value that may be None. -/
def pyStrOfOpt : Option String → String
  | none => "None"
  | some v => v

/-- The part filter of parse_email: content type text/plain and the
word attachment not occurring in str of the Content-Disposition. -/
def plain_nonattachment (p : EmailPart) : Bool :=
  p.content_type == "text/plain" &&
    !(pyInStr "attachment" (pyStrOfOpt p.content_disposition))

/-- The multipart body loop of parse_email: walk the parts and break at
the first text/plain part that is not an attachment, returning its
decoded payload; none when no part matches. -/
def find_plain_part : List EmailPart → Option String
  | [] => none
  | p :: ps => if plain_nonattachment p then some p.payload else find_plain_part ps

/-- parse_email: a FETCH whose status is not OK returns the triple of
Nones; otherwise the From header, the decoded subject, and the body
(multipart walk or single payload). -/
def parse_email (fetched : Option EmailMessage) :
    Option String × Option String × Option String :=
  match fetched with
  | none => (none, none, none)
  | some msg =>
    let body : Option String :=
      match msg.parts with
      | some parts => find_plain_part parts
      | none => some msg.payload
    (msg.From, some (parse_subject msg.subject), body)

/-- An outbound confirmation email, reduced to its observable data: the
recipient and the ticket id substituted into the template. -/
structure SentEmail where
  recipient : String
  ticket_ref : Nat
deriving DecidableEq

/-- send_ticket_email: when the sender is falsy (None or empty) it logs
and returns with no send; otherwise a confirmation carrying the new
ticket id is sent to the sender. Template loading and SMTP transport
are abstracted into the returned value. -/
def send_ticket_email (sender : Option String) (new_ticket_id : Nat) :
    Option SentEmail :=
  match sender with
  | none => none
  | some v => if v = "" then none else some { recipient := v, ticket_ref := new_ticket_id }

/-- The per-message body of the process_emails loop: parse, create a
ticket, send the confirmation. Returns the updated store and the
confirmation sent, if any. -/
def process_message (d : Date) (t1 t2 : Nat) (fetched : Option EmailMessage)
    (s : List Rec) : List Rec × Option SentEmail :=
  let parsed := parse_email fetched
  let created := create_ticket d t1 t2 parsed.1 parsed.2.1 parsed.2.2 s
  (created.2, send_ticket_email parsed.1 created.1)

/-- One unseen message to process: the outcome of its FETCH (none when
the status is not OK) and the two clock readings taken while its ticket
is built. -/
structure MsgEvent where
  fetched : Option EmailMessage
  t1 : Nat
  t2 : Nat
deriving DecidableEq

/-- The for-loop of process_emails over the unseen message ids. -/
def process_loop (d : Date) : List MsgEvent → List Rec → List Rec × List SentEmail
  | [], s => (s, [])
  | e :: es, s =>
    let m := process_message d e.t1 e.t2 e.fetched s
    let r := process_loop d es m.1
    (r.1, match m.2 with
          | none => r.2
          | some x => x :: r.2)

/-- process_emails: when connect_to_mail_service fails the cycle is
abandoned with the store untouched and nothing sent; otherwise every
unseen message is processed in order (an empty unseen list just runs
the loop zero times). -/
def process_emails (d : Date) (connected : Bool) (events : List MsgEvent)
    (s : List Rec) : List Rec × List SentEmail :=
  if connected then process_loop d events s else (s, [])

/-- The original pre-encoding text of a subject header: the
concatenation of the decoded texts of all its decode_header fragments.
This definition follows the specification wording and is compared
against the subject computed by parse_email. -/
def original_subject (frags : List HeaderFragment) : String :=
  String.join (frags.map decode_fragment)

/-- A sample date used to evaluate the theorems on concrete input. -/
def sampleDate : Date := { year := 2025, month := 10, day := 12 }

/-- A sample multipart message with an html part before the plain part,
used to evaluate the parser theorems on concrete input. -/
def sampleMultipart : EmailMessage :=
  { From := some "alice@example.com"
    subject := some [{ decoded := "Help", encoding := none }]
    parts := some
      [{ content_type := "text/html"
         content_disposition := none
         payload := "<p>broken</p>" },
       { content_type := "text/plain"
         content_disposition := none
         payload := "it is broken" }]
    payload := "" }

/-- A sample message whose subject header decodes to two fragments,
used to evaluate the subject-decoding theorems on concrete input. -/
def sampleTwoFragMsg : EmailMessage :=
  { From := some "alice@example.com"
    subject := some
      [{ decoded := "Hello", encoding := some "utf-8" },
       { decoded := " World", encoding := some "utf-8" }]
    parts := none
    payload := "body" }

/-- A sample message with no From header. -/
def sampleNoFromMsg : EmailMessage :=
  { From := none
    subject := some [{ decoded := "Help", encoding := none }]
    parts := none
    payload := "body" }

/-- A sample creation event against the store. -/
def sampleEvent : CreateEvent :=
  { date := sampleDate
    t1 := 7
    t2 := 7
    sender := some "alice@example.com"
    subject := some "Help"
    message := some "it is broken" }

/-- A second sample creation event. -/
def sampleEvent2 : CreateEvent :=
  { date := sampleDate
    t1 := 9
    t2 := 9
    sender := none
    subject := none
    message := none }

/-- A sample persisted ticket with the date-seeded id of sampleDate. -/
def sampleTicketRec : Rec :=
  { _id := 20251012100000
    ticket_id := 20251012100000
    sender := "alice@example.com"
    subject := "Help"
    message := "it is broken"
    status := "open"
    created_at := some 7
    updated_at := some 7 }

/-- Invariant of every store reachable from the empty store by ticket
creations: the maximal primary key exceeds the sentinel key, every
record either has its ticket_id equal to its primary key and a primary
key above the sentinel key, or is a sentinel (primary key equal to the
sentinel key, ticket_id different from it), and at most one record
carries the sentinel key. -/
def storeOK (s : List Rec) : Prop :=
  sentinel_id < latest_ticket_id s ∧
  (∀ r ∈ s, (r.ticket_id = r._id ∧ sentinel_id < r._id) ∨
    (r._id = sentinel_id ∧ r.ticket_id ≠ r._id)) ∧
  List.countP (fun r => r._id == sentinel_id) s ≤ 1

/-! Arithmetic of the decimal numerals built by the id generator. -/

theorem foldl_dstep_shift (l : List Char) (a : Nat) :
    l.foldl dstep a = a * 10 ^ l.length + l.foldl dstep 0 := by
  induction l generalizing a with
  | nil => simp
  | cons c t ih =>
    have h1 := ih (dstep a c)
    have h2 := ih (dstep 0 c)
    simp only [List.foldl_cons, List.length_cons] at *
    rw [h1, h2, dstep, dstep]
    ring

theorem pyInt_append (s t : String) :
    pyInt (s ++ t) = pyInt s * 10 ^ t.toList.length + pyInt t := by
  simp only [pyInt, digitsVal, String.toList, String.data_append, List.foldl_append]
  rw [foldl_dstep_shift]

theorem chrDigit_toNat (d : Nat) (h : d < 10) : (chrDigit d).toNat - 48 = d := by
  interval_cases d <;> rfl

theorem digitsVal_reverse_map (l : List Nat) (h : ∀ d ∈ l, d < 10) :
    digitsVal ((l.reverse).map chrDigit) = ofDigitsLE l := by
  induction l with
  | nil => rfl
  | cons d t ih =>
    have hd : d < 10 := h d (List.mem_cons_self d t)
    have ht : ∀ x ∈ t, x < 10 := fun x hx => h x (List.mem_cons_of_mem d hx)
    simp only [List.reverse_cons, List.map_append, List.map_cons, List.map_nil]
    simp only [digitsVal, List.foldl_append, List.foldl_cons, List.foldl_nil]
    have := ih ht
    simp only [digitsVal] at this
    rw [this, dstep, chrDigit_toNat d hd, ofDigitsLE]
    ring

theorem natDigitsRev_lt (fuel n : Nat) : ∀ d ∈ natDigitsRev fuel n, d < 10 := by
  induction fuel generalizing n with
  | zero => intro d hd; simp [natDigitsRev] at hd
  | succ fuel ih =>
    intro d hd
    match n with
    | 0 => simp [natDigitsRev] at hd
    | k + 1 =>
      simp only [natDigitsRev, List.mem_cons] at hd
      rcases hd with h | h
      · omega
      · exact ih _ d h

theorem natDigitsRev_val (fuel n : Nat) (h : n ≤ fuel) :
    ofDigitsLE (natDigitsRev fuel n) = n := by
  induction fuel generalizing n with
  | zero =>
    have : n = 0 := Nat.le_zero.mp h
    subst this; rfl
  | succ fuel ih =>
    match n with
    | 0 => rfl
    | k + 1 =>
      have hdiv : (k + 1) / 10 ≤ fuel := by
        have := Nat.div_le_self (k + 1) 10
        have h2 : (k + 1) / 10 < k + 1 := Nat.div_lt_self (Nat.succ_pos k) (by omega)
        omega
      simp only [natDigitsRev, ofDigitsLE, ih ((k + 1) / 10) hdiv]
      omega

theorem pyInt_pyStr (n : Nat) : pyInt (pyStr n) = n := by
  by_cases h : n = 0
  · subst h; rfl
  · have : pyStr n = String.mk (((natDigitsRev n n).reverse).map chrDigit) := by
      simp [pyStr, h]
    rw [this]
    show digitsVal (((natDigitsRev n n).reverse).map chrDigit) = n
    rw [digitsVal_reverse_map _ (natDigitsRev_lt n n), natDigitsRev_val n n (Nat.le_refl n)]

theorem zfill2_spec (m : Nat) (h : m < 100) :
    (zfill2 m).toList.length = 2 ∧ pyInt (zfill2 m) = m := by
  interval_cases m <;> exact ⟨rfl, rfl⟩

theorem toList_length_append (s t : String) :
    (s ++ t).toList.length = s.toList.length + t.toList.length := by
  simp [String.toList, String.data_append]

/-- The decimal string assembled by generate_ticket_id reads back as
the positional value year-month-day-counter: the two-digit zero padding
of month and day gives them weights 10^8 and 10^6. -/
theorem initial_ticket_id_eq (y m dd : Nat) (hm : m < 100) (hd : dd < 100) :
    initial_ticket_id { year := y, month := m, day := dd } =
      ((y * 100 + m) * 100 + dd) * 1000000 + 100000 := by
  have hdd := zfill2_spec dd hd
  have hmm := zfill2_spec m hm
  have hc1 : pyInt (pyStr 100000) = 100000 := pyInt_pyStr 100000
  have hc2 : (pyStr 100000).toList.length = 6 := rfl
  have e1 : pyInt (pyStr y ++ zfill2 m ++ zfill2 dd ++ pyStr 100000) =
      pyInt (pyStr y ++ zfill2 m ++ zfill2 dd) * 10 ^ 6 + 100000 := by
    rw [pyInt_append, hc1, hc2]
  have e2 : pyInt (pyStr y ++ zfill2 m ++ zfill2 dd) =
      pyInt (pyStr y ++ zfill2 m) * 10 ^ 2 + dd := by
    rw [pyInt_append, hdd.1, hdd.2]
  have e3 : pyInt (pyStr y ++ zfill2 m) = y * 10 ^ 2 + m := by
    rw [pyInt_append, hmm.1, hmm.2, pyInt_pyStr]
  show pyInt (pyStr y ++ zfill2 m ++ zfill2 dd ++ pyStr 100000) = _
  rw [e1, e2, e3]
  ring

theorem sentinel_lt_initial (d : Date) (h : validDate d) :
    sentinel_id < initial_ticket_id d := by
  obtain ⟨y, m, dd⟩ := d
  obtain ⟨hy, hm, hd⟩ := h
  dsimp only at hy hm hd
  rw [initial_ticket_id_eq y m dd hm hd]
  have h1 : 10000000 ≤ (y * 100 + m) * 100 + dd := by omega
  have h2 : 10000000 * 1000000 ≤ ((y * 100 + m) * 100 + dd) * 1000000 :=
    Nat.mul_le_mul_right 1000000 h1
  show 10000000000000 < _
  omega

/-! Behaviour of the store primitives. -/

theorem latest_append (s : List Rec) (r : Rec) :
    latest_ticket_id (s ++ [r]) = max (latest_ticket_id s) r._id := by
  induction s with
  | nil => simp [latest_ticket_id]
  | cons a t ih =>
    show max a._id (latest_ticket_id (t ++ [r])) =
      max (max a._id (latest_ticket_id t)) r._id
    rw [ih]
    exact (Nat.max_assoc _ _ _).symm

theorem mem_le_latest (r : Rec) (s : List Rec) (h : r ∈ s) :
    r._id ≤ latest_ticket_id s := by
  induction s with
  | nil => cases h
  | cons a t ih =>
    rcases List.mem_cons.mp h with h1 | h1
    · subst h1; exact Nat.le_max_left _ _
    · exact Nat.le_trans (ih h1) (Nat.le_max_right _ _)

theorem create_ticket_snd (d : Date) (t1 t2 : Nat) (sd sj ms : Option String)
    (s : List Rec) :
    (create_ticket d t1 t2 sd sj ms s).2 =
      (generate_ticket_id d s).2 ++
        [{ _id := (generate_ticket_id d s).1
           ticket_id := (generate_ticket_id d s).1
           sender := pyOrStr sd "Unknown Sender"
           subject := pyOrStr sj "No Subject"
           message := pyOrStr ms "No Content"
           status := "open"
           created_at := some t1
           updated_at := some t2 }] := rfl

theorem create_ticket_cons_fst (d : Date) (t1 t2 : Nat) (sd sj ms : Option String)
    (a : Rec) (s : List Rec) :
    (create_ticket d t1 t2 sd sj ms (a :: s)).1 = latest_ticket_id (a :: s) + 1 := rfl

theorem create_ticket_cons_latest (d : Date) (t1 t2 : Nat) (sd sj ms : Option String)
    (a : Rec) (s : List Rec) :
    latest_ticket_id (create_ticket d t1 t2 sd sj ms (a :: s)).2 =
      latest_ticket_id (a :: s) + 1 := by
  rw [create_ticket_snd, latest_append]
  show max (latest_ticket_id (a :: s)) (latest_ticket_id (a :: s) + 1) = _
  exact Nat.max_eq_right (Nat.le_succ _)

theorem create_ticket_cons_ne_nil (d : Date) (t1 t2 : Nat) (sd sj ms : Option String)
    (a : Rec) (s : List Rec) :
    (create_ticket d t1 t2 sd sj ms (a :: s)).2 ≠ [] := by
  rw [create_ticket_snd]
  simp

theorem create_ticket_nil_latest (d : Date) (t1 t2 : Nat) (sd sj ms : Option String)
    (h : validDate d) :
    latest_ticket_id (create_ticket d t1 t2 sd sj ms []).2 = initial_ticket_id d := by
  have e : latest_ticket_id (create_ticket d t1 t2 sd sj ms []).2 =
      max sentinel_id (max (initial_ticket_id d) 0) := rfl
  rw [e, Nat.max_zero]
  exact Nat.max_eq_right (Nat.le_of_lt (sentinel_lt_initial d h))

theorem create_ticket_last (d : Date) (t1 t2 : Nat) (sd sj ms : Option String)
    (s : List Rec) :
    (create_ticket d t1 t2 sd sj ms s).2.getLast? = some
      { _id := (generate_ticket_id d s).1
        ticket_id := (generate_ticket_id d s).1
        sender := pyOrStr sd "Unknown Sender"
        subject := pyOrStr sj "No Subject"
        message := pyOrStr ms "No Content"
        status := "open"
        created_at := some t1
        updated_at := some t2 } := by
  rw [create_ticket_snd]
  exact List.getLast?_concat _

theorem storeOK_ne_nil (s : List Rec) (h : storeOK s) : s ≠ [] := by
  intro he
  subst he
  have h1 := h.1
  simp [latest_ticket_id, sentinel_id] at h1

theorem create_ticket_storeOK (d : Date) (t1 t2 : Nat) (sd sj ms : Option String)
    (s : List Rec) (h : storeOK s) :
    storeOK (create_ticket d t1 t2 sd sj ms s).2 := by
  obtain ⟨a, s', rfl⟩ : ∃ a s', s = a :: s' := by
    cases s with
    | nil => exact absurd rfl (storeOK_ne_nil [] h)
    | cons a s' => exact ⟨a, s', rfl⟩
  obtain ⟨hlat, hall, hcnt⟩ := h
  refine ⟨?_, ?_, ?_⟩
  · rw [create_ticket_cons_latest]
    omega
  · intro r hr
    rw [create_ticket_snd] at hr
    rcases List.mem_append.mp hr with h1 | h1
    · exact hall r h1
    · have he := List.mem_singleton.mp h1
      subst he
      left
      refine ⟨rfl, ?_⟩
      show sentinel_id < (generate_ticket_id d (a :: s')).1
      show sentinel_id < latest_ticket_id (a :: s') + 1
      omega
  · rw [create_ticket_snd, List.countP_append]
    have hfalse : (((generate_ticket_id d (a :: s')).1 == sentinel_id)) = false := by
      refine beq_eq_false_iff_ne.mpr ?_
      show latest_ticket_id (a :: s') + 1 ≠ sentinel_id
      omega
    simp only [List.countP_cons, List.countP_nil, hfalse]
    simpa using hcnt

theorem create_ticket_nil_storeOK (d : Date) (t1 t2 : Nat) (sd sj ms : Option String)
    (h : validDate d) :
    storeOK (create_ticket d t1 t2 sd sj ms []).2 := by
  have hI := sentinel_lt_initial d h
  refine ⟨?_, ?_, ?_⟩
  · rw [create_ticket_nil_latest d t1 t2 sd sj ms h]
    exact hI
  · intro r hr
    rw [create_ticket_snd] at hr
    rcases List.mem_append.mp hr with h1 | h1
    · have he := List.mem_singleton.mp h1
      subst he
      right
      refine ⟨rfl, ?_⟩
      show initial_ticket_id d ≠ sentinel_id
      omega
    · have he := List.mem_singleton.mp h1
      subst he
      left
      refine ⟨rfl, ?_⟩
      show sentinel_id < (generate_ticket_id d []).1
      exact hI
  · rw [create_ticket_snd, List.countP_append]
    have htrue : ((sentinelRec d)._id == sentinel_id) = true := by
      exact beq_iff_eq.mpr rfl
    have hfalse : (((generate_ticket_id d []).1 == sentinel_id)) = false := by
      refine beq_eq_false_iff_ne.mpr ?_
      show initial_ticket_id d ≠ sentinel_id
      omega
    show List.countP _ [sentinelRec d] + List.countP _ [_] ≤ 1
    simp only [List.countP_cons, List.countP_nil, hfalse, htrue]
    simp

theorem run_creations_storeOK (events : List CreateEvent) :
    ∀ s : List Rec, storeOK s → storeOK (run_creations events s).2 := by
  induction events with
  | nil => intro s h; exact h
  | cons e es ih =>
    intro s h
    exact ih _ (create_ticket_storeOK e.date e.t1 e.t2 e.sender e.subject e.message s h)

theorem run_creations_chain (events : List CreateEvent) :
    ∀ s : List Rec, s ≠ [] →
      List.Chain' (· < ·) (latest_ticket_id s :: (run_creations events s).1) ∧
      latest_ticket_id (run_creations events s).2 =
        latest_ticket_id s + events.length ∧
      (run_creations events s).2 ≠ [] := by
  induction events with
  | nil =>
    intro s hs
    exact ⟨by simp [run_creations], by simp [run_creations], by simpa [run_creations]⟩
  | cons e es ih =>
    intro s hs
    obtain ⟨a, s', rfl⟩ : ∃ a s', s = a :: s' := by
      cases s with
      | nil => exact absurd rfl hs
      | cons a s' => exact ⟨a, s', rfl⟩
    have hne := create_ticket_cons_ne_nil e.date e.t1 e.t2 e.sender e.subject e.message a s'
    obtain ⟨ihchain, ihlatest, ihne⟩ :=
      ih (create_ticket e.date e.t1 e.t2 e.sender e.subject e.message (a :: s')).2 hne
    have hl := create_ticket_cons_latest e.date e.t1 e.t2 e.sender e.subject e.message a s'
    rw [hl] at ihchain ihlatest
    refine ⟨?_, ?_, ihne⟩
    · show List.Chain' (· < ·) (latest_ticket_id (a :: s') ::
        (create_ticket e.date e.t1 e.t2 e.sender e.subject e.message (a :: s')).1 ::
        (run_creations es (create_ticket e.date e.t1 e.t2 e.sender e.subject
          e.message (a :: s')).2).1)
      rw [create_ticket_cons_fst]
      exact List.chain'_cons.mpr ⟨Nat.lt_succ_self _, ihchain⟩
    · show latest_ticket_id (run_creations es (create_ticket e.date e.t1 e.t2
        e.sender e.subject e.message (a :: s')).2).2 = _
      rw [ihlatest]
      simp [List.length_cons]
      omega

/-! Behaviour of the parser primitives. -/

theorem parse_email_body (m : EmailMessage) :
    (parse_email (some m)).2.2 =
      match m.parts with
      | some parts => find_plain_part parts
      | none => some m.payload := rfl

theorem find_plain_part_eq_find (ps : List EmailPart) :
    find_plain_part ps = (ps.find? plain_nonattachment).map EmailPart.payload := by
  induction ps with
  | nil => rfl
  | cons p t ih =>
    cases h : plain_nonattachment p with
    | true => simp [find_plain_part, h, List.find?_cons]
    | false => simp [find_plain_part, h, List.find?_cons, ih]

/-! The claims. -/

/-- C1: for every sequence of ticket creations against an initially
empty store, the assigned ids are strictly increasing across the store
lifetime, and on a non-empty store generate_ticket_id returns the
maximal id present plus one. -/
theorem ticket_ids_strictly_increasing :
    (∀ events : List CreateEvent, (∀ e ∈ events, validDate e.date) →
      List.Chain' (· < ·) (run_creations events []).1) ∧
    (∀ (d : Date) (s : List Rec), s ≠ [] →
      (generate_ticket_id d s).1 = latest_ticket_id s + 1) := by
  constructor
  · intro events hv
    cases events with
    | nil => simp [run_creations]
    | cons e es =>
      have hvd : validDate e.date := hv e (List.mem_cons_self e es)
      have hne : (create_ticket e.date e.t1 e.t2 e.sender e.subject e.message []).2 ≠ [] := by
        rw [create_ticket_snd]
        simp
      have hch := (run_creations_chain es
        (create_ticket e.date e.t1 e.t2 e.sender e.subject e.message []).2 hne).1
      rw [create_ticket_nil_latest e.date e.t1 e.t2 e.sender e.subject e.message hvd] at hch
      show List.Chain' (· < ·)
        ((create_ticket e.date e.t1 e.t2 e.sender e.subject e.message []).1 ::
          (run_creations es
            (create_ticket e.date e.t1 e.t2 e.sender e.subject e.message []).2).1)
      exact hch
  · intro d s hs
    cases s with
    | nil => exact absurd rfl hs
    | cons a s' => rfl

/-- C1 witness: two concrete creations, their id list is a strict
chain. -/
theorem ticket_ids_strictly_increasing_witness :
    (∀ e ∈ [sampleEvent, sampleEvent2], validDate e.date) ∧
    List.Chain' (· < ·) (run_creations [sampleEvent, sampleEvent2] []).1 :=
  ⟨by decide, ticket_ids_strictly_increasing.1 [sampleEvent, sampleEvent2] (by decide)⟩

/-- C2: generate_ticket_id on an empty store inserts the sentinel
record with primary key 10000000000000 and returns the int of the
concatenated decimal fields year, zero-padded month, zero-padded day,
and the counter base 100000, which is their positional value. -/
theorem empty_store_seed (y m dd : Nat) (hm : m < 100) (hd : dd < 100) :
    generate_ticket_id { year := y, month := m, day := dd } [] =
      (initial_ticket_id { year := y, month := m, day := dd },
        [sentinelRec { year := y, month := m, day := dd }]) ∧
    (sentinelRec { year := y, month := m, day := dd })._id = 10000000000000 ∧
    initial_ticket_id { year := y, month := m, day := dd } =
      ((y * 100 + m) * 100 + dd) * 1000000 + 100000 :=
  ⟨rfl, rfl, initial_ticket_id_eq y m dd hm hd⟩

/-- C2 witness: the 2025-10-12 seed evaluates to 20251012100000. -/
theorem empty_store_seed_witness :
    ((10 : Nat) < 100 ∧ (12 : Nat) < 100) ∧
    (generate_ticket_id { year := 2025, month := 10, day := 12 } [] =
      (initial_ticket_id { year := 2025, month := 10, day := 12 },
        [sentinelRec { year := 2025, month := 10, day := 12 }]) ∧
    (sentinelRec { year := 2025, month := 10, day := 12 })._id = 10000000000000 ∧
    initial_ticket_id { year := 2025, month := 10, day := 12 } =
      ((2025 * 100 + 10) * 100 + 12) * 1000000 + 100000) :=
  ⟨⟨by decide, by decide⟩, empty_store_seed 2025 10 12 (by decide) (by decide)⟩

/-- C3 counterexample: processing a message whose FETCH failed, against
a store holding only the sentinel, still inserts a ticket: the store
grows from one record to two, where the claim demands the message be
skipped with no ticket created for it. -/
theorem fetch_failure_skips_counterexample :
    ((process_message sampleDate 0 0 none [sentinelRec sampleDate]).1).length = 2 ∧
    ([sentinelRec sampleDate] : List Rec).length = 1 := by
  decide

/-- C3 (amended): a failed connect abandons the cycle with the store
untouched and nothing sent; a message whose fetch fails is caught at
its status check and the loop continues, but the message is not
skipped: a ticket with all-default fields is still created for it and
no confirmation is sent for it. -/
theorem failure_handling_amended :
    (∀ (d : Date) (events : List MsgEvent) (s : List Rec),
      process_emails d false events s = (s, [])) ∧
    (∀ (d : Date) (t1 t2 : Nat) (s : List Rec),
      ∃ r : Rec, (process_message d t1 t2 none s).1.getLast? = some r ∧
        r.sender = "Unknown Sender" ∧ r.subject = "No Subject" ∧
        r.message = "No Content" ∧
        (process_message d t1 t2 none s).2 = none) := by
  constructor
  · intro d events s
    rfl
  · intro d t1 t2 s
    exact ⟨_, create_ticket_last d t1 t2 none none none s, rfl, rfl, rfl, rfl⟩

/-- C4 counterexample: a subject header decoding to two fragments;
parse_email keeps only the first fragment, so the decoded subject
differs from the original pre-encoding string. -/
theorem subject_first_fragment_counterexample :
    (parse_email (some sampleTwoFragMsg)).2.1 = some "Hello" ∧
    original_subject
      [{ decoded := "Hello", encoding := some "utf-8" },
       { decoded := " World", encoding := some "utf-8" }] = "Hello World" ∧
    (parse_email (some sampleTwoFragMsg)).2.1 ≠
      some (original_subject
        [{ decoded := "Hello", encoding := some "utf-8" },
         { decoded := " World", encoding := some "utf-8" }]) := by
  decide

/-- C4 (amended): parse_email decodes only the first decode_header
fragment of the subject, using that fragment declared encoding (utf-8
when undeclared); the decoded subject equals the original pre-encoding
string whenever the header decodes to a single non-empty fragment,
while both an absent header and a present-but-empty header (falsy in
the source guard) yield No Subject. -/
theorem decoded_subject_amended :
    (∀ (m : EmailMessage) (f : HeaderFragment), m.subject = some [f] →
      f ≠ { decoded := "", encoding := none } →
      (parse_email (some m)).2.1 = some (original_subject [f])) ∧
    (∀ m : EmailMessage, m.subject = none →
      (parse_email (some m)).2.1 = some "No Subject") ∧
    (∀ m : EmailMessage,
      m.subject = some [{ decoded := "", encoding := none }] →
      (parse_email (some m)).2.1 = some "No Subject") := by
  refine ⟨?_, ?_, ?_⟩
  · intro m f h hne
    show some (parse_subject m.subject) = _
    rw [h]
    show some (if [f] = [{ decoded := "", encoding := none }] then "No Subject"
      else decode_fragment ([f].headD { decoded := "", encoding := none })) = _
    rw [if_neg (by simp [hne])]
    rfl
  · intro m h
    show some (parse_subject m.subject) = _
    rw [h]
    rfl
  · intro m h
    show some (parse_subject m.subject) = _
    rw [h]
    rfl

/-- C4 witness: a one-fragment non-empty subject decodes to the full
original string. -/
theorem decoded_subject_amended_witness :
    (sampleMultipart.subject = some [{ decoded := "Help", encoding := none }] ∧
      ({ decoded := "Help", encoding := none } : HeaderFragment) ≠
        { decoded := "", encoding := none }) ∧
    (parse_email (some sampleMultipart)).2.1 =
      some (original_subject [{ decoded := "Help", encoding := none }]) :=
  ⟨⟨rfl, by decide⟩, decoded_subject_amended.1 sampleMultipart
    { decoded := "Help", encoding := none } rfl (by decide)⟩

/-- C5: for a multipart message the body is the decoded payload of the
first part that is text/plain and not an attachment (the first match of
the walk, so an html part is ignored whenever a plain part precedes or
follows among matches), none when no part matches; for a non-multipart
message the body is the single decoded payload. -/
theorem multipart_body_selection :
    (∀ (m : EmailMessage) (ps : List EmailPart), m.parts = some ps →
      (parse_email (some m)).2.2 =
        (ps.find? plain_nonattachment).map EmailPart.payload) ∧
    (∀ (m : EmailMessage) (ps : List EmailPart), m.parts = some ps →
      (∀ p ∈ ps, plain_nonattachment p = false) →
      (parse_email (some m)).2.2 = none) ∧
    (∀ m : EmailMessage, m.parts = none →
      (parse_email (some m)).2.2 = some m.payload) := by
  refine ⟨?_, ?_, ?_⟩
  · intro m ps h
    rw [parse_email_body, h]
    exact find_plain_part_eq_find ps
  · intro m ps h hall
    rw [parse_email_body, h]
    show find_plain_part ps = none
    rw [find_plain_part_eq_find ps,
      List.find?_eq_none.mpr (by intro x hx; simp [hall x hx])]
    rfl
  · intro m h
    rw [parse_email_body, h]

/-- C5 witness: a message with an html part before the plain part
selects the plain part payload. -/
theorem multipart_body_selection_witness :
    sampleMultipart.parts = some
      [{ content_type := "text/html"
         content_disposition := none
         payload := "<p>broken</p>" },
       { content_type := "text/plain"
         content_disposition := none
         payload := "it is broken" }] ∧
    (parse_email (some sampleMultipart)).2.2 =
      (([{ content_type := "text/html"
           content_disposition := none
           payload := "<p>broken</p>" },
         { content_type := "text/plain"
           content_disposition := none
           payload := "it is broken" }] : List EmailPart).find?
        plain_nonattachment).map EmailPart.payload ∧
    (parse_email (some sampleMultipart)).2.2 = some "it is broken" :=
  ⟨rfl, multipart_body_selection.1 sampleMultipart _ rfl, by decide⟩

/-- C6: the record persisted by create_ticket carries Unknown Sender
when the parsed sender is empty, No Subject when the parsed subject is
empty, No Content when the parsed body is empty, and always status
open. -/
theorem create_ticket_defaults (d : Date) (t1 t2 : Nat)
    (sd sj ms : Option String) (s : List Rec) :
    ∃ r : Rec, (create_ticket d t1 t2 sd sj ms s).2.getLast? = some r ∧
      r.status = "open" ∧
      ((sd = none ∨ sd = some "") → r.sender = "Unknown Sender") ∧
      ((sj = none ∨ sj = some "") → r.subject = "No Subject") ∧
      ((ms = none ∨ ms = some "") → r.message = "No Content") := by
  refine ⟨_, create_ticket_last d t1 t2 sd sj ms s, rfl, ?_, ?_, ?_⟩ <;>
    rintro (rfl | rfl) <;> rfl

/-- C6 witness: all-empty parsed fields on concrete input. -/
theorem create_ticket_defaults_witness :
    ∃ r : Rec, (create_ticket sampleDate 3 3 none none none []).2.getLast? = some r ∧
      r.status = "open" ∧
      (((none : Option String) = none ∨ (none : Option String) = some "") →
        r.sender = "Unknown Sender") ∧
      (((none : Option String) = none ∨ (none : Option String) = some "") →
        r.subject = "No Subject") ∧
      (((none : Option String) = none ∨ (none : Option String) = some "") →
        r.message = "No Content") :=
  create_ticket_defaults sampleDate 3 3 none none none []

/-- C7: a processed message with no From header stores sender Unknown
Sender, and send_ticket_email returns with no send. -/
theorem no_from_header (d : Date) (t1 t2 : Nat) (m : EmailMessage)
    (s : List Rec) (h : m.From = none) :
    (∃ r : Rec, ((process_message d t1 t2 (some m) s).1).getLast? = some r ∧
      r.sender = "Unknown Sender") ∧
    (process_message d t1 t2 (some m) s).2 = none := by
  constructor
  · rw [show (process_message d t1 t2 (some m) s).1 =
        (create_ticket d t1 t2 m.From (some (parse_subject m.subject))
          (match m.parts with
           | some parts => find_plain_part parts
           | none => some m.payload) s).2
      from rfl, h]
    exact ⟨_, create_ticket_last d t1 t2 none _ _ s, rfl⟩
  · show send_ticket_email m.From _ = none
    rw [h]
    rfl

/-- C7 witness: a concrete message without a From header. -/
theorem no_from_header_witness :
    sampleNoFromMsg.From = none ∧
    ((∃ r : Rec, ((process_message sampleDate 4 4 (some sampleNoFromMsg) []).1).getLast? =
        some r ∧ r.sender = "Unknown Sender") ∧
      (process_message sampleDate 4 4 (some sampleNoFromMsg) []).2 = none) :=
  ⟨rfl, no_from_header sampleDate 4 4 sampleNoFromMsg [] rfl⟩

/-- C8: on a store holding the sentinel and at least one record keyed
above the sentinel key, generate_ticket_id returns the maximal key plus
one and the sentinel key is not the maximum; the date-seeded id exceeds
the sentinel key for every four-digit year. -/
theorem sentinel_inert (d d0 : Date) (s : List Rec)
    (hmem : sentinelRec d0 ∈ s)
    (hreal : ∃ r ∈ s, sentinel_id < r._id) :
    ((generate_ticket_id d s).1 = latest_ticket_id s + 1 ∧
      sentinel_id < latest_ticket_id s) ∧
    (∀ d2 : Date, validDate d2 → sentinel_id < initial_ticket_id d2) := by
  constructor
  · constructor
    · cases s with
      | nil => cases hmem
      | cons a s' => rfl
    · obtain ⟨r, hr, hlt⟩ := hreal
      exact Nat.lt_of_lt_of_le hlt (mem_le_latest r s hr)
  · exact fun d2 h2 => sentinel_lt_initial d2 h2

/-- C8 witness: the sentinel plus one date-seeded ticket. -/
theorem sentinel_inert_witness :
    (sentinelRec sampleDate ∈ ([sentinelRec sampleDate, sampleTicketRec] : List Rec)) ∧
    (∃ r ∈ ([sentinelRec sampleDate, sampleTicketRec] : List Rec),
      sentinel_id < r._id) ∧
    (((generate_ticket_id sampleDate [sentinelRec sampleDate, sampleTicketRec]).1 =
        latest_ticket_id [sentinelRec sampleDate, sampleTicketRec] + 1 ∧
      sentinel_id < latest_ticket_id [sentinelRec sampleDate, sampleTicketRec]) ∧
    (∀ d2 : Date, validDate d2 → sentinel_id < initial_ticket_id d2)) :=
  ⟨by decide, by decide,
    sentinel_inert sampleDate sampleDate [sentinelRec sampleDate, sampleTicketRec]
      (by decide) (by decide)⟩

/-- C9 counterexample: with clock readings 0 and 1 for the two
datetime.now() calls of create_ticket, the stored created_at and
updated_at differ. -/
theorem timestamps_equal_counterexample :
    (create_ticket sampleDate 0 1 none none none []).2.getLast?.map Rec.created_at =
      some (some 0) ∧
    (create_ticket sampleDate 0 1 none none none []).2.getLast?.map Rec.updated_at =
      some (some 1) ∧
    (create_ticket sampleDate 0 1 none none none []).2.getLast?.map Rec.created_at ≠
      (create_ticket sampleDate 0 1 none none none []).2.getLast?.map Rec.updated_at := by
  decide

/-- C9 (amended): created_at and updated_at hold the first and second
clock reading taken during creation; they are equal whenever the two
consecutive readings coincide. -/
theorem timestamps_amended (d : Date) (t1 t2 : Nat) (sd sj ms : Option String)
    (s : List Rec) :
    ∃ r : Rec, (create_ticket d t1 t2 sd sj ms s).2.getLast? = some r ∧
      r.created_at = some t1 ∧ r.updated_at = some t2 ∧
      (t1 = t2 → r.created_at = r.updated_at) := by
  refine ⟨_, create_ticket_last d t1 t2 sd sj ms s, rfl, rfl, ?_⟩
  rintro rfl
  rfl

/-- C9 witness: coinciding readings give equal timestamps. -/
theorem timestamps_amended_witness :
    ∃ r : Rec, (create_ticket sampleDate 5 5 none none none []).2.getLast? = some r ∧
      r.created_at = some 5 ∧ r.updated_at = some 5 ∧
      (5 = 5 → r.created_at = r.updated_at) :=
  timestamps_amended sampleDate 5 5 none none none []

/-- C10: every record inserted by create_ticket has ticket_id equal to
its primary key; in every store reachable from the empty store, a
record whose ticket_id differs from its primary key carries the
sentinel key, the sentinel-keyed record does have differing fields, and
at most one record carries the sentinel key. -/
theorem ticket_id_matches_key :
    (∀ (d : Date) (t1 t2 : Nat) (sd sj ms : Option String) (s : List Rec),
      ∃ r : Rec, (create_ticket d t1 t2 sd sj ms s).2.getLast? = some r ∧
        r.ticket_id = r._id) ∧
    (∀ events : List CreateEvent, (∀ e ∈ events, validDate e.date) →
      (∀ r ∈ (run_creations events []).2,
        (r.ticket_id ≠ r._id → r._id = sentinel_id) ∧
        (r._id = sentinel_id → r.ticket_id ≠ r._id)) ∧
      List.countP (fun r => r._id == sentinel_id) (run_creations events []).2 ≤ 1) := by
  constructor
  · intro d t1 t2 sd sj ms s
    exact ⟨_, create_ticket_last d t1 t2 sd sj ms s, rfl⟩
  · intro events hv
    cases events with
    | nil =>
      constructor
      · intro r hr
        cases hr
      · decide
    | cons e es =>
      have hOK : storeOK (run_creations (e :: es) []).2 := by
        show storeOK (run_creations es
          (create_ticket e.date e.t1 e.t2 e.sender e.subject e.message []).2).2
        exact run_creations_storeOK es _
          (create_ticket_nil_storeOK e.date e.t1 e.t2 e.sender e.subject e.message
            (hv e (List.mem_cons_self e es)))
      obtain ⟨hlat, hall, hcnt⟩ := hOK
      refine ⟨?_, hcnt⟩
      intro r hr
      rcases hall r hr with ⟨h1, h2⟩ | ⟨h1, h2⟩
      · refine ⟨fun hn => absurd h1 hn, fun he => ?_⟩
        rw [he] at h2
        exact absurd h2 (lt_irrefl _)
      · exact ⟨fun _ => h1, fun _ => h2⟩

/-- C10 witness: one concrete creation from the empty store. -/
theorem ticket_id_matches_key_witness :
    (∀ e ∈ [sampleEvent], validDate e.date) ∧
    ((∀ r ∈ (run_creations [sampleEvent] []).2,
        (r.ticket_id ≠ r._id → r._id = sentinel_id) ∧
        (r._id = sentinel_id → r.ticket_id ≠ r._id)) ∧
      List.countP (fun r => r._id == sentinel_id) (run_creations [sampleEvent] []).2 ≤ 1) :=
  ⟨by decide, ticket_id_matches_key.2 [sampleEvent] (by decide)⟩
